import Mathlib

/-!
Verification of the polling/retry utilities, the authentication fixture
lifecycle, and the header component of the Playwright automation framework.

The TypeScript sources are shallowly embedded:

* `WaitUtil.waitForCondition` (src/utils/wait.util.ts, lines 279-294) is a
  `while (Date.now() - startTime < timeout)` loop that evaluates the
  condition, returns on `true`, and otherwise sleeps `POLL_INTERVAL` ms.
  Time is modelled ideally: a condition evaluation is instantaneous and each
  `sleep(POLL_INTERVAL)` advances the clock by exactly `POLL_INTERVAL`, so
  `Date.now() - startTime` equals `POLL_INTERVAL * (number of sleeps so far)`.
  The condition is modelled as a map from the evaluation index to an outcome
  (a boolean, or a thrown error), and the run records how many evaluations
  and sleeps occurred.

* `WaitUtil.retryUntilSuccess` (src/utils/wait.util.ts, lines 467-488) is a
  `for (let attempt = 1; attempt <= maxAttempts; attempt++)` loop; attempts
  are JavaScript numbers, modelled as `Int` so that non-positive
  `maxAttempts` arguments are representable.

* `WaitUtil.waitForConsoleMessage` (src/utils/wait.util.ts, lines 302-329)
  races a `setTimeout` deadline against a `page.on('console')` handler; it is
  modelled as a small state machine over the subscription/timer flags, driven
  by the list of console messages that arrive before the deadline.

* The `authenticatedPage` fixture (src/fixtures/auth.fixture.ts, lines
  42-68) is a straight-line `await` sequence; it is modelled as the trace of
  driver events it performs.  Per the host test-runner's fixture contract
  (and section 4.4 of the design spec), `await use(page)` runs the test body
  and then resolves regardless of whether the body passed or failed — the
  runner records the body's failure itself — so the statements after
  `use(page)` execute on both paths.

* `HeaderComponent.getNotificationCount` reads a badge; `parseInt` and the
  JavaScript falsy-or `text || '0'` are modelled explicitly.
-/

namespace WaitUtil

/-- `WaitUtil.POLL_INTERVAL` (wait.util.ts line 14). -/
def POLL_INTERVAL : Nat := 500

/-- `WaitUtil.DEFAULT_TIMEOUT` (wait.util.ts line 13). -/
def DEFAULT_TIMEOUT : Nat := 30000

/-- Outcome of one evaluation of a condition passed to `waitForCondition`:
either it returns a boolean, or it throws an error (carried as a message). -/
inductive CondOutcome where
  | ok (b : Bool)
  | err (e : String)
deriving DecidableEq

/-- Accounting for one run of `waitForCondition`: how many condition
evaluations were performed, how many `sleep(POLL_INTERVAL)` calls were made,
and the final value of `Date.now() - startTime` in the idealized clock. -/
structure WaitState where
  evals : Nat
  sleeps : Nat
  elapsed : Nat
deriving DecidableEq

/-- Result of `waitForCondition`: normal return, the timeout `Error` thrown
at line 293 (carrying its message string), or an error propagated out of a
condition evaluation. -/
inductive WaitOutcome where
  | success (s : WaitState)
  | timedOut (msg : String) (s : WaitState)
  | raised (e : String) (s : WaitState)
deriving DecidableEq

/-- The `while` loop of `waitForCondition` (wait.util.ts lines 286-293).
`cond i` is the outcome of the `i`-th condition evaluation (0-indexed);
`evals`, `sleeps`, `elapsed` are the state on entry to the loop test. -/
def waitLoop (cond : Nat → CondOutcome) (timeout : Nat) (msg : String)
    (evals sleeps elapsed : Nat) : WaitOutcome :=
  if elapsed < timeout then
    match cond evals with
    | .err e => .raised e ⟨evals + 1, sleeps, elapsed⟩
    | .ok true => .success ⟨evals + 1, sleeps, elapsed⟩
    | .ok false =>
        waitLoop cond timeout msg (evals + 1) (sleeps + 1) (elapsed + POLL_INTERVAL)
  else
    .timedOut (msg ++ " within " ++ toString timeout ++ "ms") ⟨evals, sleeps, elapsed⟩
termination_by timeout - elapsed
decreasing_by simp [POLL_INTERVAL]; omega

/-- `WaitUtil.waitForCondition(condition, timeout, errorMessage)`
(wait.util.ts lines 279-294).  The source's default arguments are
`DEFAULT_TIMEOUT` and `"Condition not met"`. -/
def waitForCondition (cond : Nat → CondOutcome) (timeout : Nat) (msg : String) :
    WaitOutcome :=
  waitLoop cond timeout msg 0 0 0

/-- If the next `k` evaluations are `false` and the one after is `true`, and
the loop guard still passes at that evaluation, the loop returns success
after `k + 1` further evaluations and `k` further sleeps. -/
theorem waitLoop_success (cond : Nat → CondOutcome) (timeout : Nat) (msg : String) :
    ∀ (k evals sleeps elapsed : Nat),
      (∀ i, i < k → cond (evals + i) = .ok false) →
      cond (evals + k) = .ok true →
      elapsed + POLL_INTERVAL * k < timeout →
      waitLoop cond timeout msg evals sleeps elapsed =
        .success ⟨evals + k + 1, sleeps + k, elapsed + POLL_INTERVAL * k⟩ := by
  intro k
  induction k with
  | zero =>
      intro evals sleeps elapsed _ htrue hlt
      rw [waitLoop]
      simp only [Nat.mul_zero, Nat.add_zero] at hlt ⊢
      rw [if_pos hlt]
      simp only [Nat.add_zero] at htrue
      rw [htrue]
  | succ k ih =>
      intro evals sleeps elapsed hfalse htrue hlt
      have h0 : cond evals = .ok false := by
        have := hfalse 0 (Nat.succ_pos k)
        simpa using this
      have hguard : elapsed < timeout := by
        have : elapsed ≤ elapsed + POLL_INTERVAL * (k + 1) := Nat.le_add_right _ _
        omega
      rw [waitLoop, if_pos hguard, h0]
      have hrec := ih (evals + 1) (sleeps + 1) (elapsed + POLL_INTERVAL)
        (fun i hi => by
          have := hfalse (i + 1) (Nat.succ_lt_succ hi)
          simpa [Nat.add_assoc, Nat.add_comm 1 i] using this)
        (by
          have := htrue
          simpa [Nat.add_assoc, Nat.add_comm 1 k] using this)
        (by simp [POLL_INTERVAL] at hlt ⊢; omega)
      rw [hrec]
      simp [POLL_INTERVAL]
      omega

/-- If the next `k` evaluations are `false` and the one after throws, and the
loop guard still passes at that evaluation, the loop propagates the error at
that evaluation. -/
theorem waitLoop_raised (cond : Nat → CondOutcome) (timeout : Nat) (msg : String) :
    ∀ (k evals sleeps elapsed : Nat) (e : String),
      (∀ i, i < k → cond (evals + i) = .ok false) →
      cond (evals + k) = .err e →
      elapsed + POLL_INTERVAL * k < timeout →
      waitLoop cond timeout msg evals sleeps elapsed =
        .raised e ⟨evals + k + 1, sleeps + k, elapsed + POLL_INTERVAL * k⟩ := by
  intro k
  induction k with
  | zero =>
      intro evals sleeps elapsed e _ herr hlt
      rw [waitLoop]
      simp only [Nat.mul_zero, Nat.add_zero] at hlt ⊢
      rw [if_pos hlt]
      simp only [Nat.add_zero] at herr
      rw [herr]
  | succ k ih =>
      intro evals sleeps elapsed e hfalse herr hlt
      have h0 : cond evals = .ok false := by
        have := hfalse 0 (Nat.succ_pos k)
        simpa using this
      have hguard : elapsed < timeout := by
        have : elapsed ≤ elapsed + POLL_INTERVAL * (k + 1) := Nat.le_add_right _ _
        omega
      rw [waitLoop, if_pos hguard, h0]
      have hrec := ih (evals + 1) (sleeps + 1) (elapsed + POLL_INTERVAL) e
        (fun i hi => by
          have := hfalse (i + 1) (Nat.succ_lt_succ hi)
          simpa [Nat.add_assoc, Nat.add_comm 1 i] using this)
        (by
          have := herr
          simpa [Nat.add_assoc, Nat.add_comm 1 k] using this)
        (by simp [POLL_INTERVAL] at hlt ⊢; omega)
      rw [hrec]
      simp [POLL_INTERVAL]
      omega

/-- If the condition never evaluates `true`, the loop eventually throws the
timeout `Error`, whose message is built from the caller's `errorMessage` and
the configured `timeout` parameter only. -/
theorem waitLoop_timedOut (cond : Nat → CondOutcome) (timeout : Nat) (msg : String)
    (hfalse : ∀ i, cond i = .ok false) :
    ∀ (d evals sleeps elapsed : Nat), timeout - elapsed = d →
      ∃ s, waitLoop cond timeout msg evals sleeps elapsed =
        .timedOut (msg ++ " within " ++ toString timeout ++ "ms") s := by
  intro d
  induction d using Nat.strong_induction_on with
  | _ d ih =>
      intro evals sleeps elapsed hd
      by_cases hguard : elapsed < timeout
      · rw [waitLoop, if_pos hguard, hfalse evals]
        have hlt : timeout - (elapsed + POLL_INTERVAL) < d := by
          simp [POLL_INTERVAL]; omega
        exact ih _ hlt (evals + 1) (sleeps + 1) (elapsed + POLL_INTERVAL) rfl
      · rw [waitLoop, if_neg hguard]
        exact ⟨⟨evals, sleeps, elapsed⟩, rfl⟩

namespace Retry

/-- Interpolation of `lastError?.message` at wait.util.ts line 486: when no
attempt ever ran, `lastError` is `undefined` and the JavaScript template
renders the string `"undefined"`. -/
def lastErrorMsg : Option String → String
  | none => "undefined"
  | some m => m

/-- The failure message built at wait.util.ts lines 485-487. -/
def failMsg (maxAttempts : Int) (lastError : Option String) : String :=
  "Action failed after " ++ toString maxAttempts ++ " attempts. Last error: " ++
    lastErrorMsg lastError

/-- Accounting for one run of `retryUntilSuccess`: how many times the action
was invoked and how many `sleep(delayMs)` calls were made. -/
structure RetryState where
  calls : Nat
  sleeps : Nat
deriving DecidableEq

/-- Result of `retryUntilSuccess`: the first successful attempt's value, or
the `Error` thrown after exhausting all attempts. -/
inductive RetryOutcome (T : Type) where
  | success (v : T) (s : RetryState)
  | failure (msg : String) (s : RetryState)
deriving DecidableEq

/-- The `for (let attempt = 1; attempt <= maxAttempts; attempt++)` loop of
`retryUntilSuccess` (wait.util.ts lines 474-487).  `action i` is the outcome
of the attempt numbered `i` (1-indexed, as in the source); a failed attempt
records its error in `lastError`, and a sleep happens only when
`attempt < maxAttempts`. -/
def retryLoop {T : Type} (action : Int → Except String T) (maxAttempts : Int)
    (attempt : Int) (lastError : Option String) (calls sleeps : Nat) :
    RetryOutcome T :=
  if attempt ≤ maxAttempts then
    match action attempt with
    | .ok v => .success v ⟨calls + 1, sleeps⟩
    | .error e =>
        if attempt < maxAttempts then
          retryLoop action maxAttempts (attempt + 1) (some e) (calls + 1) (sleeps + 1)
        else
          retryLoop action maxAttempts (attempt + 1) (some e) (calls + 1) sleeps
  else
    .failure (failMsg maxAttempts lastError) ⟨calls, sleeps⟩
termination_by (maxAttempts + 1 - attempt).toNat
decreasing_by all_goals omega

end Retry

/-- `WaitUtil.retryUntilSuccess(action, maxAttempts, delayMs)`
(wait.util.ts lines 467-488).  `delayMs` affects only real-time duration, not
the call/sleep counts recorded here. -/
def retryUntilSuccess {T : Type} (action : Int → Except String T)
    (maxAttempts : Int) (_delayMs : Nat) : Retry.RetryOutcome T :=
  Retry.retryLoop action maxAttempts 1 none 0 0

namespace Retry

/-- One loop iteration in which the attempt succeeds. -/
theorem retryLoop_step_ok {T : Type} (action : Int → Except String T)
    (maxAttempts a : Int) (le : Option String) (calls sleeps : Nat) (v : T)
    (ha : a ≤ maxAttempts) (hv : action a = .ok v) :
    retryLoop action maxAttempts a le calls sleeps =
      .success v ⟨calls + 1, sleeps⟩ := by
  rw [retryLoop, if_pos ha, hv]

/-- One loop iteration in which the attempt fails with `attempt < maxAttempts`:
the loop sleeps once and retries with the recorded error. -/
theorem retryLoop_step_error {T : Type} (action : Int → Except String T)
    (maxAttempts a : Int) (le : Option String) (calls sleeps : Nat) (e : String)
    (ha : a < maxAttempts) (he : action a = .error e) :
    retryLoop action maxAttempts a le calls sleeps =
      retryLoop action maxAttempts (a + 1) (some e) (calls + 1) (sleeps + 1) := by
  rw [retryLoop, if_pos (le_of_lt ha), he]
  simp [ha]

/-- One loop iteration in which the final attempt fails: no sleep follows. -/
theorem retryLoop_step_error_last {T : Type} (action : Int → Except String T)
    (maxAttempts : Int) (le : Option String) (calls sleeps : Nat) (e : String)
    (he : action maxAttempts = .error e) :
    retryLoop action maxAttempts maxAttempts le calls sleeps =
      retryLoop action maxAttempts (maxAttempts + 1) (some e) (calls + 1) sleeps := by
  rw [retryLoop, if_pos (Int.le_refl maxAttempts), he]
  simp

/-- The loop exit: once `attempt > maxAttempts`, the failure is thrown from
the recorded `lastError`. -/
theorem retryLoop_exit {T : Type} (action : Int → Except String T)
    (maxAttempts a : Int) (le : Option String) (calls sleeps : Nat)
    (ha : ¬ a ≤ maxAttempts) :
    retryLoop action maxAttempts a le calls sleeps =
      .failure (failMsg maxAttempts le) ⟨calls, sleeps⟩ := by
  rw [retryLoop, if_neg ha]

/-- If attempts `a, a+1, ..., a+j-1` fail and attempt `a+j ≤ maxAttempts`
succeeds with `v`, the loop returns `v` after `j + 1` further calls and `j`
further sleeps. -/
theorem retryLoop_success {T : Type} (action : Int → Except String T)
    (maxAttempts : Int) :
    ∀ (j : Nat) (a : Int) (le : Option String) (calls sleeps : Nat) (v : T),
      a + j ≤ maxAttempts →
      (∀ i : Int, a ≤ i → i < a + j → ∃ e, action i = .error e) →
      action (a + j) = .ok v →
      retryLoop action maxAttempts a le calls sleeps =
        .success v ⟨calls + j + 1, sleeps + j⟩ := by
  intro j
  induction j with
  | zero =>
      intro a le calls sleeps v hle _ hok
      simp only [Nat.cast_zero, Int.add_zero] at hle hok
      rw [retryLoop_step_ok action maxAttempts a le calls sleeps v hle hok]
      simp
  | succ j ih =>
      intro a le calls sleeps v hle hfail hok
      have halt : a < maxAttempts := by push_cast at hle; omega
      obtain ⟨e, he⟩ := hfail a (Int.le_refl a) (by push_cast; omega)
      rw [retryLoop_step_error action maxAttempts a le calls sleeps e halt he]
      have hrec := ih (a + 1) (some e) (calls + 1) (sleeps + 1) v
        (by push_cast at hle ⊢; omega)
        (fun i hi1 hi2 => hfail i (by omega) (by push_cast at hi2 ⊢; omega))
        (by
          have harith : a + 1 + (j : Int) = a + ((j : Nat) + 1 : Nat) := by
            push_cast; ring
          rw [harith]
          exact hok)
      rw [hrec]
      simp
      omega

/-- If attempts `a, ..., maxAttempts` (that is, `j + 1` attempts with
`a + j = maxAttempts`) all fail with errors given by `e`, the loop throws the
failure message built from the final attempt's error after `j + 1` further
calls and `j` further sleeps (no sleep after the final attempt). -/
theorem retryLoop_allError {T : Type} (action : Int → Except String T)
    (maxAttempts : Int) (e : Int → String) :
    ∀ (j : Nat) (a : Int) (le : Option String) (calls sleeps : Nat),
      a + (j : Int) = maxAttempts →
      (∀ i : Int, a ≤ i → i ≤ maxAttempts → action i = .error (e i)) →
      retryLoop action maxAttempts a le calls sleeps =
        .failure (failMsg maxAttempts (some (e maxAttempts)))
          ⟨calls + j + 1, sleeps + j⟩ := by
  intro j
  induction j with
  | zero =>
      intro a le calls sleeps ha hfail
      have ha' : a = maxAttempts := by push_cast at ha; omega
      subst ha'
      rw [retryLoop_step_error_last action a le calls sleeps (e a)
        (hfail a (Int.le_refl a) (Int.le_refl a))]
      rw [retryLoop_exit action a (a + 1) (some (e a)) (calls + 1) sleeps (by omega)]
      simp
  | succ j ih =>
      intro a le calls sleeps ha hfail
      have halt : a < maxAttempts := by push_cast at ha; omega
      rw [retryLoop_step_error action maxAttempts a le calls sleeps (e a) halt
        (hfail a (Int.le_refl a) (by omega))]
      have hrec := ih (a + 1) (some (e a)) (calls + 1) (sleeps + 1)
        (by push_cast at ha ⊢; omega)
        (fun i hi1 hi2 => hfail i (by omega) hi2)
      rw [hrec]
      simp
      omega

end Retry

namespace Console

/-- State of one `waitForConsoleMessage` call (wait.util.ts lines 302-329):
whether the `page.on('console', handler)` subscription is registered, whether
the `setTimeout` deadline timer is still pending, and whether the promise has
settled (`some true` = resolved on a match, `some false` = rejected by the
timer). -/
structure RaceState where
  subscribed : Bool
  timerPending : Bool
  settled : Option Bool
deriving DecidableEq

/-- State right after the call registers the timer (`setTimeout`, line 308)
and the handler (`page.on('console', handler)`, line 327). -/
def initState : RaceState :=
  { subscribed := true, timerPending := true, settled := none }

/-- The console handler (wait.util.ts lines 313-325), applied to the text of
one arriving message.  It only runs while the subscription is registered; on
a match it clears the timer (`clearTimeout`, line 321), removes itself
(`page.off`, line 322), and resolves (line 323); otherwise it leaves the
state unchanged.  `matchTest` is the line 315-318 predicate (`text.includes`
for a string pattern, `RegExp.test` for a regex). -/
def handler (matchTest : String → Bool) (text : String) (s : RaceState) :
    RaceState :=
  if s.subscribed then
    if matchTest text then
      { subscribed := false, timerPending := false, settled := some true }
    else s
  else s

/-- The deadline timer callback (wait.util.ts lines 308-311): if it is still
pending when the deadline arrives, it removes the handler (`page.off`, line
309) and rejects (line 310). -/
def timerFire (s : RaceState) : RaceState :=
  if s.timerPending then
    { subscribed := false, timerPending := false, settled := some false }
  else s

/-- One full execution of `waitForConsoleMessage`: the messages that arrive
before the deadline are delivered to the handler in order, then the deadline
timer fires (a no-op if the handler already cleared it). -/
def run (matchTest : String → Bool) (msgs : List String) : RaceState :=
  timerFire (msgs.foldl (fun s text => handler matchTest text s) initState)

/-- The handler is a no-op once the subscription has been removed. -/
theorem foldl_handler_unsubscribed (matchTest : String → Bool) :
    ∀ (msgs : List String) (s : RaceState), s.subscribed = false →
      msgs.foldl (fun s text => handler matchTest text s) s = s := by
  intro msgs
  induction msgs with
  | nil => intro s _; rfl
  | cons t rest ih =>
      intro s hs
      have : handler matchTest t s = s := by
        unfold handler
        rw [hs]
        simp
      rw [List.foldl_cons, this]
      exact ih s hs

/-- Folding the handler from the initial state: if some message matches, the
state ends resolved with both registrations cleaned up; otherwise the state
is unchanged (still subscribed, timer still pending). -/
theorem foldl_handler_initState (matchTest : String → Bool) :
    ∀ msgs : List String,
      msgs.foldl (fun s text => handler matchTest text s) initState =
        if msgs.any matchTest then
          { subscribed := false, timerPending := false, settled := some true }
        else initState := by
  intro msgs
  induction msgs with
  | nil => rfl
  | cons t rest ih =>
      rw [List.foldl_cons]
      by_cases ht : matchTest t
      · have h1 : handler matchTest t initState =
            { subscribed := false, timerPending := false, settled := some true } := by
          unfold handler initState
          simp [ht]
        rw [h1, foldl_handler_unsubscribed matchTest rest _ rfl]
        simp [ht]
      · have h1 : handler matchTest t initState = initState := by
          unfold handler initState
          simp [ht]
        rw [h1, ih]
        simp [ht]

end Console

end WaitUtil

namespace AuthFixture

/-- One driver-visible step performed by the `authenticatedPage` fixture
(auth.fixture.ts lines 42-68), in program order. -/
inductive FixtureEvent where
  | newContext
  | newPage
  | gotoLogin
  | login
  | waitForURL
  | runBody (failed : Bool)
  | closeContext
deriving DecidableEq, BEq

/-- A run of the fixture: the trace of steps it performed and whether the
fixture function itself returned normally or rethrew an error. -/
structure FixtureRun where
  events : List FixtureEvent
  outcome : Except String Unit

/-- The `authenticatedPage` fixture body (auth.fixture.ts lines 42-68):
`browser.newContext()`, `context.newPage()`, `loginPage.goto()`,
`loginPage.login(...)`, `page.waitForURL(...)`, `use(page)`,
`context.close()`, in that order, where a rejected `await` aborts the rest.
`loginResult` and `urlResult` are the outcomes of the login action and of the
post-login navigation wait; `bodyFails` says whether the test body running
inside `use(page)` failed.  Per the test runner's fixture contract, `await
use(page)` resolves after the body regardless of the body's outcome (the
runner records the body's failure itself), so it never aborts the sequence. -/
def authenticatedPage (loginResult urlResult : Except String Unit)
    (bodyFails : Bool) : FixtureRun :=
  match loginResult with
  | .error e => ⟨[.newContext, .newPage, .gotoLogin, .login], .error e⟩
  | .ok _ =>
    match urlResult with
    | .error e =>
        ⟨[.newContext, .newPage, .gotoLogin, .login, .waitForURL], .error e⟩
    | .ok _ =>
        ⟨[.newContext, .newPage, .gotoLogin, .login, .waitForURL,
            .runBody bodyFails, .closeContext], .ok ()⟩

end AuthFixture

namespace HeaderComponent

/-- The whitespace characters skipped by `parseInt` before reading a number
(the common JavaScript whitespace set). -/
def isJsSpace (c : Char) : Bool :=
  [' ', '\t', '\n', '\r', '\x0b', '\x0c'].contains c

/-- Value of `c` as a digit in the given radix, or `none` when `c` does not
denote a digit below the radix (as in the host language's `parseInt`, where
letters act as digits from ten upward). -/
def digitValue (radix : Nat) (c : Char) : Option Nat :=
  let raw : Nat :=
    if c.isDigit then c.toNat - 48
    else if 'a' ≤ c ∧ c ≤ 'z' then c.toNat - 87
    else if 'A' ≤ c ∧ c ≤ 'Z' then c.toNat - 55
    else 255
  if raw < radix then some raw else none

/-- Accumulate the longest leading run of digits of the given radix into a
value; `none` when that run is empty (JavaScript `NaN`). -/
def leadingDigits (radix : Nat) (cs : List Char) : Option Nat :=
  let run := cs.takeWhile (fun c => (digitValue radix c).isSome)
  if run.isEmpty then none
  else some (run.foldl (fun acc c => acc * radix + (digitValue radix c).getD 0) 0)

/-- JavaScript `parseInt(s)` with no radix argument: skip leading whitespace,
read an optional sign, interpret a `0x`/`0X` prefix as hexadecimal, otherwise
parse the longest leading run of decimal digits; `none` models `NaN`. -/
def parseIntJS (s : String) : Option Int :=
  let cs := s.toList.dropWhile isJsSpace
  let signAndRest : Int × List Char :=
    match cs with
    | '-' :: rest => (-1, rest)
    | '+' :: rest => (1, rest)
    | _ => (1, cs)
  let sign := signAndRest.1
  let body := signAndRest.2
  match body with
  | '0' :: x :: rest =>
      if x == 'x' || x == 'X' then
        (leadingDigits 16 rest).map (fun n => sign * n)
      else
        (leadingDigits 10 body).map (fun n => sign * n)
  | _ => (leadingDigits 10 body).map (fun n => sign * n)

/-- The JavaScript falsy-or `t || dflt` for a nullable string `t`: both
`null` and the empty string are falsy and select the default. -/
def jsOrString (t : Option String) (dflt : String) : String :=
  match t with
  | none => dflt
  | some s => if s == "" then dflt else s

/-- A run of `HeaderComponent.getNotificationCount`: the value returned
(`none` models `NaN`) and whether `textContent()` was read from the badge. -/
structure NotifRun where
  result : Option Int
  textRead : Bool
deriving DecidableEq

/-- `HeaderComponent.getNotificationCount()`: if the badge is not visible,
return `0` without reading its text; otherwise read the text (`null` when
absent) and return `parseInt(text || '0')`. -/
def getNotificationCount (badgeVisible : Bool) (badgeText : Option String) :
    NotifRun :=
  if !badgeVisible then ⟨some 0, false⟩
  else ⟨parseIntJS (jsOrString badgeText "0"), true⟩

end HeaderComponent

/-- C1: in every execution of the `authenticatedPage` fixture in which login
reaches the Ready state (the login action and the post-login URL wait both
succeed) and the test body then runs, the fixture closes the browser context
it created exactly once after the test body finishes — on the pass path and
on the fail path alike. -/
theorem c1_fixture_closes_context_once (bodyFails : Bool) :
    (AuthFixture.authenticatedPage (.ok ()) (.ok ()) bodyFails).events.count
        AuthFixture.FixtureEvent.closeContext = 1 ∧
    (AuthFixture.authenticatedPage (.ok ()) (.ok ()) bodyFails).events.drop 5 =
      [.runBody bodyFails, .closeContext] := by
  constructor <;> rfl

/-- C2 counterexample: with a zero timeout, `waitForCondition` never
evaluates the condition at all — even a constantly-true condition produces
the timeout error with an evaluation count of `0`, not `1`: the
`while (Date.now() - startTime < timeout)` guard fails before the first
evaluation. -/
theorem c2_counterexample :
    WaitUtil.waitForCondition (fun _ => .ok true) 0 "Condition not met" =
      .timedOut ("Condition not met" ++ " within " ++ toString (0 : Nat) ++ "ms")
        ⟨0, 0, 0⟩ := by
  rw [WaitUtil.waitForCondition, WaitUtil.waitLoop]
  simp

/-- C2 amended: when `waitForCondition` is called with a zero time budget it
evaluates the condition zero times (not once) and fails immediately — no
sleep and no evaluation happen before the timeout error is thrown. -/
theorem c2_zero_timeout_no_evaluation (cond : Nat → WaitUtil.CondOutcome)
    (msg : String) :
    WaitUtil.waitForCondition cond 0 msg =
      .timedOut (msg ++ " within " ++ toString (0 : Nat) ++ "ms") ⟨0, 0, 0⟩ := by
  rw [WaitUtil.waitForCondition, WaitUtil.waitLoop]
  simp

/-- C3 counterexample: for a never-true condition and a 300 ms timeout the
failure is a plain `Error` whose message reports the configured timeout
(`"within 300ms"`), while the actual elapsed time at the throw is 500 ms; the
error carries neither the elapsed wall-clock time nor any last-observed
state. -/
theorem c3_counterexample :
    WaitUtil.waitForCondition (fun _ => .ok false) 300 "Condition not met" =
      .timedOut ("Condition not met" ++ " within " ++ toString (300 : Nat) ++ "ms")
        ⟨1, 1, 500⟩ ∧ (500 : Nat) ≠ 300 := by
  constructor
  · rw [WaitUtil.waitForCondition, WaitUtil.waitLoop]
    norm_num
    rw [WaitUtil.waitLoop]
    norm_num [WaitUtil.POLL_INTERVAL]
  · norm_num

/-- C3 amended: for every condition that never evaluates true,
`waitForCondition` throws an `Error` whose message is the caller's
`errorMessage` followed by `" within "`, the configured `timeout` parameter,
and `"ms"` — a fixed string independent of the run, carrying neither the
measured elapsed time nor the last observed state of the condition. -/
theorem c3_timeout_error_message (cond : Nat → WaitUtil.CondOutcome)
    (timeout : Nat) (msg : String) (hfalse : ∀ i, cond i = .ok false) :
    ∃ s, WaitUtil.waitForCondition cond timeout msg =
      .timedOut (msg ++ " within " ++ toString timeout ++ "ms") s :=
  WaitUtil.waitLoop_timedOut cond timeout msg hfalse (timeout - 0) 0 0 0 rfl

/-- C3 witness: the amended statement at a concrete never-true condition. -/
theorem c3_timeout_error_message_witness :
    (∀ i : Nat, (fun _ => WaitUtil.CondOutcome.ok false) i = .ok false) ∧
    ∃ s, WaitUtil.waitForCondition (fun _ => .ok false) 300 "Condition not met" =
      .timedOut ("Condition not met" ++ " within " ++ toString (300 : Nat) ++ "ms")
        s :=
  ⟨fun _ => rfl,
    c3_timeout_error_message (fun _ => .ok false) 300 "Condition not met"
      (fun _ => rfl)⟩

/-- C4: if the condition evaluates false on its first `k` evaluations and
true on the next one, and that evaluation still falls inside the time budget,
`waitForCondition` returns success right at that evaluation: exactly `k + 1`
evaluations (the claim's 1-indexed k-th evaluation), exactly `k` sleeps of
one poll interval, and a return time of `POLL_INTERVAL * k`, so the return
overshoots the instant the condition became true by at most one poll
interval. -/
theorem c4_success_on_kth_evaluation (cond : Nat → WaitUtil.CondOutcome)
    (timeout : Nat) (msg : String) (k : Nat)
    (hfalse : ∀ i, i < k → cond i = .ok false)
    (htrue : cond k = .ok true)
    (hbudget : WaitUtil.POLL_INTERVAL * k < timeout) :
    WaitUtil.waitForCondition cond timeout msg =
      .success ⟨k + 1, k, WaitUtil.POLL_INTERVAL * k⟩ := by
  have h := WaitUtil.waitLoop_success cond timeout msg k 0 0 0
    (fun i hi => by simpa using hfalse i hi) (by simpa using htrue)
    (by simpa using hbudget)
  simpa [WaitUtil.waitForCondition] using h

/-- C4 witness: a condition first true on its third evaluation returns after
3 evaluations, 2 sleeps, 1000 ms. -/
theorem c4_success_on_kth_evaluation_witness :
    (∀ i : Nat, i < 2 →
        (fun j => WaitUtil.CondOutcome.ok (decide (2 ≤ j))) i = .ok false) ∧
    WaitUtil.waitForCondition (fun j => .ok (decide (2 ≤ j))) 30000
        "Condition not met" = .success ⟨3, 2, 1000⟩ := by
  refine ⟨by decide, ?_⟩
  have h := c4_success_on_kth_evaluation (fun j => .ok (decide (2 ≤ j))) 30000
    "Condition not met" 2 (by decide) (by decide)
    (by norm_num [WaitUtil.POLL_INTERVAL])
  simpa [WaitUtil.POLL_INTERVAL] using h

/-- C5: for `maxAttempts = n ≥ 1`, `retryUntilSuccess` calls the action
exactly `k` times when attempt `k = j + 1 ≤ n` is the first success
(returning that attempt's value) with exactly `k - 1 = j` sleeps, and exactly
`n` times with `n - 1` sleeps when every attempt fails; in particular no
sleep ever follows the final attempt, and with `n = 1` the sleep count is
`0`, so the delay logic is never invoked. -/
theorem c5_retry_call_and_sleep_counts {T : Type}
    (action : Int → Except String T) (n : Int) (d : Nat) (hn : 1 ≤ n) :
    (∀ (j : Nat) (v : T), (1 : Int) + j ≤ n →
        (∀ i : Int, 1 ≤ i → i < 1 + (j : Int) → ∃ e, action i = .error e) →
        action (1 + (j : Int)) = .ok v →
        WaitUtil.retryUntilSuccess action n d = .success v ⟨j + 1, j⟩) ∧
    ((∀ i : Int, 1 ≤ i → i ≤ n → ∃ e, action i = .error e) →
        ∃ m, WaitUtil.retryUntilSuccess action n d =
          .failure m ⟨n.toNat, n.toNat - 1⟩) := by
  constructor
  · intro j v hle hfail hok
    have h := WaitUtil.Retry.retryLoop_success action n j 1 none 0 0 v hle hfail hok
    simpa [WaitUtil.retryUntilSuccess] using h
  · intro hfail
    classical
    let e : Int → String := fun i =>
      if h : 1 ≤ i ∧ i ≤ n then (hfail i h.1 h.2).choose else ""
    have he : ∀ i : Int, 1 ≤ i → i ≤ n → action i = .error (e i) := by
      intro i h1 h2
      have : e i = (hfail i h1 h2).choose := by
        simp only [e]
        rw [dif_pos ⟨h1, h2⟩]
      rw [this]
      exact (hfail i h1 h2).choose_spec
    have hj : (1 : Int) + ((n.toNat - 1 : Nat) : Int) = n := by omega
    have h := WaitUtil.Retry.retryLoop_allError action n e (n.toNat - 1) 1 none 0 0
      hj he
    refine ⟨WaitUtil.Retry.failMsg n (some (e n)), ?_⟩
    rw [WaitUtil.retryUntilSuccess, h]
    have : n.toNat - 1 + 1 = n.toNat := by omega
    simp [this]

/-- C5 witness: an action that fails on attempts 1 and 2 and succeeds on
attempt 3, with `maxAttempts = 3`: three calls, two sleeps. -/
theorem c5_retry_call_and_sleep_counts_witness :
    ((1 : Int) ≤ 3) ∧
    WaitUtil.retryUntilSuccess
        (fun i => if i < 3 then (Except.error "nope" : Except String String)
          else .ok "done") 3 50 =
      .success "done" ⟨3, 2⟩ := by
  refine ⟨by norm_num, ?_⟩
  have h := (c5_retry_call_and_sleep_counts
      (fun i => if i < 3 then (Except.error "nope" : Except String String)
        else .ok "done") 3 50 (by norm_num)).1 2 "done" (by norm_num)
    (fun i h1 h2 => ⟨"nope", by
      have hi : i < 3 := by push_cast at h2; omega
      simp [hi]⟩)
    (by norm_num)
  simpa using h

/-- C6: when every one of the `n ≥ 1` attempts fails, `retryUntilSuccess`
throws an `Error` whose message carries the attempt count and the final
attempt's error message; the errors of attempts `1, ..., n - 1` do not appear
in the surfaced failure. -/
theorem c6_retry_exhaustion_last_error {T : Type}
    (action : Int → Except String T) (n : Int) (d : Nat) (e : Int → String)
    (hn : 1 ≤ n) (hfail : ∀ i : Int, 1 ≤ i → i ≤ n → action i = .error (e i)) :
    WaitUtil.retryUntilSuccess action n d =
      .failure ("Action failed after " ++ toString n ++
          " attempts. Last error: " ++ e n)
        ⟨n.toNat, n.toNat - 1⟩ := by
  have hj : (1 : Int) + ((n.toNat - 1 : Nat) : Int) = n := by omega
  have h := WaitUtil.Retry.retryLoop_allError action n e (n.toNat - 1) 1 none 0 0
    hj hfail
  rw [WaitUtil.retryUntilSuccess, h]
  have hc : n.toNat - 1 + 1 = n.toNat := by omega
  simp [WaitUtil.Retry.failMsg, WaitUtil.Retry.lastErrorMsg, hc]

/-- C6 witness: two attempts failing with distinct errors surface only the
second error. -/
theorem c6_retry_exhaustion_last_error_witness :
    ((1 : Int) ≤ 2) ∧
    WaitUtil.retryUntilSuccess
        (fun i => (Except.error ("boom" ++ toString i) : Except String Nat)) 2 50 =
      .failure "Action failed after 2 attempts. Last error: boom2" ⟨2, 1⟩ := by
  refine ⟨by norm_num, ?_⟩
  have h := c6_retry_exhaustion_last_error
    (fun i => (Except.error ("boom" ++ toString i) : Except String Nat)) 2 50
    (fun i => "boom" ++ toString i) (by norm_num) (fun i _ _ => rfl)
  rw [h]
  decide

/-- C7: a condition evaluation that throws is propagated immediately from
that very evaluation — `waitForCondition` stops polling there and surfaces
the error, for every timeout budget under which that evaluation is reached,
so the remaining budget never affects the propagation. -/
theorem c7_condition_error_propagates (cond : Nat → WaitUtil.CondOutcome)
    (timeout : Nat) (msg : String) (k : Nat) (e : String)
    (hfalse : ∀ i, i < k → cond i = .ok false)
    (herr : cond k = .err e)
    (hbudget : WaitUtil.POLL_INTERVAL * k < timeout) :
    WaitUtil.waitForCondition cond timeout msg =
      .raised e ⟨k + 1, k, WaitUtil.POLL_INTERVAL * k⟩ := by
  have h := WaitUtil.waitLoop_raised cond timeout msg k 0 0 0 e
    (fun i hi => by simpa using hfalse i hi) (by simpa using herr)
    (by simpa using hbudget)
  simpa [WaitUtil.waitForCondition] using h

/-- C7 witness: a condition that is false once and then throws propagates the
error at the second evaluation. -/
theorem c7_condition_error_propagates_witness :
    (∀ i : Nat, i < 1 →
        (fun j => if j == 1 then WaitUtil.CondOutcome.err "boom"
          else .ok false) i = .ok false) ∧
    WaitUtil.waitForCondition
        (fun j => if j == 1 then .err "boom" else .ok false) 30000
        "Condition not met" = .raised "boom" ⟨2, 1, 500⟩ := by
  refine ⟨by decide, ?_⟩
  have h := c7_condition_error_propagates
    (fun j => if j == 1 then .err "boom" else .ok false) 30000
    "Condition not met" 1 "boom" (by decide) (by decide)
    (by norm_num [WaitUtil.POLL_INTERVAL])
  simpa [WaitUtil.POLL_INTERVAL] using h

/-- C8: on every completion path of `waitForConsoleMessage` — a matching
message arrives before the deadline, or the deadline timer fires first — the
console subscription ends removed and the timer ends non-pending (cleared by
the handler on a match, already fired on timeout), the promise settles, and
it settles resolved exactly when some arriving message matches. -/
theorem c8_console_race_cleanup (matchTest : String → Bool)
    (msgs : List String) :
    (WaitUtil.Console.run matchTest msgs).subscribed = false ∧
    (WaitUtil.Console.run matchTest msgs).timerPending = false ∧
    (WaitUtil.Console.run matchTest msgs).settled = some (msgs.any matchTest) := by
  unfold WaitUtil.Console.run
  rw [WaitUtil.Console.foldl_handler_initState]
  by_cases h : msgs.any matchTest
  · simp [h, WaitUtil.Console.timerFire]
  · simp [h, WaitUtil.Console.timerFire, WaitUtil.Console.initState]

/-- C9: calling `retryUntilSuccess` with `maxAttempts ≤ 0` never invokes the
action (zero calls) and still throws the exhaustion failure, whose message
interpolates the given attempt count and the `undefined` last error — the
invalid argument is not rejected. -/
theorem c9_retry_nonpositive_attempts {T : Type}
    (action : Int → Except String T) (n : Int) (d : Nat) (hn : n ≤ 0) :
    WaitUtil.retryUntilSuccess action n d =
      .failure ("Action failed after " ++ toString n ++
          " attempts. Last error: undefined") ⟨0, 0⟩ := by
  rw [WaitUtil.retryUntilSuccess,
    WaitUtil.Retry.retryLoop_exit action n 1 none 0 0 (by omega)]
  have hm : WaitUtil.Retry.failMsg n none =
      "Action failed after " ++ toString n ++
        " attempts. Last error: undefined" := by
    unfold WaitUtil.Retry.failMsg WaitUtil.Retry.lastErrorMsg
    rw [String.append_assoc]
    rfl
  rw [hm]

/-- C9 witness: with `maxAttempts = -2` even an always-succeeding action is
never called and the failure message reads `-2` attempts and an `undefined`
last error. -/
theorem c9_retry_nonpositive_attempts_witness :
    ((-2 : Int) ≤ 0) ∧
    WaitUtil.retryUntilSuccess (fun _ => (Except.ok 7 : Except String Nat))
        (-2) 1000 =
      .failure "Action failed after -2 attempts. Last error: undefined"
        ⟨0, 0⟩ := by
  refine ⟨by norm_num, ?_⟩
  rw [c9_retry_nonpositive_attempts (fun _ => (Except.ok 7 : Except String Nat))
    (-2) 1000 (by norm_num)]
  decide

/-- C10 counterexample: with the badge visible and its text present but
empty, `getNotificationCount` returns `0`, although parsing the badge text
itself yields no integer (`parseInt("")` is `NaN`): the `text || '0'` default
also fires for the empty string, not only when the text is absent. -/
theorem c10_counterexample :
    HeaderComponent.getNotificationCount true (some "") =
      ⟨some 0, true⟩ ∧
    HeaderComponent.parseIntJS "" = none := by
  constructor <;> rfl

/-- C10 amended: `getNotificationCount` returns `0` without reading the badge
text whenever the badge is not visible; when the badge is visible it returns
the integer parsed from the badge text, defaulting the text to `"0"` when it
is absent or empty. -/
theorem c10_notification_count (t : Option String) :
    HeaderComponent.getNotificationCount false t = ⟨some 0, false⟩ ∧
    HeaderComponent.getNotificationCount true t =
      ⟨HeaderComponent.parseIntJS
          (match t with
            | none => "0"
            | some s => if s = "" then "0" else s), true⟩ := by
  refine ⟨rfl, ?_⟩
  unfold HeaderComponent.getNotificationCount HeaderComponent.jsOrString
  cases t with
  | none => rfl
  | some s =>
      by_cases h : s = "" <;> simp [h]
